import Mathlib

/-!
Verification development for the drive-to-lightroomcc transfer tool.

The Python sources are shallowly embedded as total Lean functions.
Network, filesystem and console effects are made explicit:

- every outbound HTTP call is recorded in a trace, and the response a
  call would receive is supplied by an environment record;
- an `Option` result models a Python call that may raise (none means
  the call raised and the surrounding `except` handler ran);
- console output relevant to a property is reified as data (either a
  list of console lines or an explicit branch marker corresponding to
  the distinct message a code path prints);
- `datetime` values are modelled as integer seconds.

Definitions carry the names of the Python functions they embed
(leading underscores dropped where Lean style prefers it).
-/

set_option linter.unusedVariables false

namespace DriveToLightroom

/-! ## Response unwrapping (`src/auth/adobe_auth.py`, `_strip_adobe_prefix`)

Adobe prefixes JSON bodies with the 12-character anti-hijacking guard
`while (1) \x7b\x7d`.  `_strip_adobe_prefix` drops the first 12 characters
of the body when and only when the body starts with that literal guard.
-/

/-- The literal anti-hijacking guard Adobe prepends to JSON responses
(12 characters). -/
def adobeGuard : String := "while (1) \x7b\x7d"

/-- Embeds `AdobeLightroomAuth._strip_adobe_prefix`: if the raw body starts
with the guard, return the body without its first 12 characters, else
return the body unchanged.  The prefix test and the character drop are
written on the underlying character lists (Python strings are character
sequences) so the definition evaluates inside the kernel. -/
def strip_adobe_prefix (raw : String) : String :=
  if adobeGuard.data.isPrefixOf raw.data then ⟨raw.data.drop 12⟩ else raw

/-! ## Folder path resolution (`src/ui/menus.py`, `get_folder_path`)

`GoogleDriveFolderSelector.get_folder_path` resolves a human-readable
path by recursing on the first parent id of a folder.  The Python code
has no explicit depth bound: on a cyclic parent chain it recurses until
the interpreter recursion limit raises `RecursionError`, which the
enclosing `except Exception` of the deepest frame converts into the
unknown-path fallback; the outer frames then append their folder names
normally.  The interpreter recursion budget is modelled as explicit
fuel: fuel 0 is the frame whose recursive call raises `RecursionError`
and is caught by that same frame's handler.
-/

/-- Metadata the Drive `files().get` call returns for a folder:
`folder.get("name", "Unknown")` and `folder.get("parents", [])`. -/
structure FolderMeta where
  name : Option String
  parents : List String
deriving Repr, DecidableEq

/-- Environment for folder-path resolution: `lookup fid` is the result of
`files().get(fileId=fid)`; `none` models the API call raising. -/
structure DriveEnv where
  lookup : String → Option FolderMeta

/-- The fallback string `"Unknown Path (<folder_id>)"` built by the
`except` handler of `get_folder_path`. -/
def unknownPathFor (folderId : String) : String :=
  "Unknown Path (" ++ folderId ++ ")"

/-- Embeds `GoogleDriveFolderSelector.get_folder_path` with explicit fuel
standing for the interpreter recursion budget (see section comment):
root maps to the drive root label; a failed metadata lookup is caught and
yields the unknown-path fallback; an absent or root first parent ends the
walk; otherwise the function recurses on the first parent and appends the
folder name, and with exhausted fuel the frame yields the fallback (its
recursive call raised `RecursionError`, caught by its own handler). -/
def get_folder_path (env : DriveEnv) : Nat → String → String
  | fuel, folderId =>
    if folderId = "root" then "My Drive"
    else
      match env.lookup folderId with
      | none => unknownPathFor folderId
      | some folder =>
        let folderName := folder.name.getD "Unknown"
        match folder.parents with
        | [] => "My Drive / " ++ folderName
        | p :: _ =>
          if p = "root" then "My Drive / " ++ folderName
          else
            match fuel with
            | 0 => unknownPathFor folderId
            | Nat.succ n => get_folder_path env n p ++ " / " ++ folderName

/-- A one-folder cyclic Drive: folder `a` (named `x`) lists itself as its
own parent; every other lookup raises. -/
def cycDriveEnv : DriveEnv :=
  ⟨fun fid => if fid = "a" then some ⟨some "x", ["a"]⟩ else none⟩

/-! ## Python truthiness helpers -/

/-- Truthiness of an optional string (`if not x` in Python is taken for
`None` and for the empty string). -/
def strTruthy : Option String → Bool
  | none => false
  | some s => s != ""

/-- Truthiness of optional byte content: `None` and `b""` are falsy. -/
def bytesTruthy : Option (List Nat) → Bool
  | none => false
  | some c => !c.isEmpty

/-! ## Adobe token lifecycle (`src/auth/adobe_auth.py`)

`datetime` values are integer seconds; the five-minute skew is 300
seconds.  The token file and the three network exchanges are supplied by
an `AuthEnv`: `stored` is the parsed content of `tokens/adobe_token.json`
(`none` for an absent or unreadable file), `refreshResponse` is the JSON
body of a successful (2xx) refresh exchange (`none` when the exchange
raises or returns non-2xx via `raise_for_status`), and `oauthResponse`
is the token response the interactive flow ends with (`none` when any
step of that flow fails).  File writes in `_save_tokens` are assumed to
succeed.
-/

/-- Content of the persisted token file as `_load_tokens` reads it. -/
structure StoredToken where
  access_token : Option String
  refresh_token : Option String
  expires_at : Option Int
deriving Repr, DecidableEq

/-- A token-endpoint JSON response as consumed by `_save_tokens`:
`access_token` is a required key, `refresh_token` and `expires_in` are
read with defaults. -/
structure TokenResponse where
  access_token : String
  refresh_token : Option String
  expires_in : Option Int
deriving Repr, DecidableEq

/-- The mutable token fields of `AdobeLightroomAuth`
(`access_token`, `refresh_token`, `token_expires`). -/
structure AuthState where
  access_token : Option String
  refresh_token : Option String
  token_expires : Option Int
deriving Repr, DecidableEq

/-- Environment of one `authenticate()` call (see section comment). -/
structure AuthEnv where
  now : Int
  stored : Option StoredToken
  refreshResponse : Option TokenResponse
  oauthResponse : Option TokenResponse

/-- Field state set in `__init__`: all three token fields are `None`. -/
def initialAuthState : AuthState := ⟨none, none, none⟩

/-- Embeds `_load_tokens`: an absent or unreadable file leaves the state
initial and returns false; otherwise the three fields are copied from the
file and the returned flag is `bool(access_token)`. -/
def load_tokens (env : AuthEnv) : AuthState × Bool :=
  match env.stored with
  | none => (initialAuthState, false)
  | some t => (⟨t.access_token, t.refresh_token, t.expires_at⟩, strTruthy t.access_token)

/-- Embeds `_is_token_valid`: false when the access token is absent or
empty or no expiry is set, else `now < token_expires - 300`. -/
def is_token_valid (st : AuthState) (now : Int) : Bool :=
  match st.access_token, st.token_expires with
  | some a, some e => a != "" && decide (now < e - 300)
  | _, _ => false

/-- Embeds `_save_tokens`: the new expiry is `now + expires_in` with
`expires_in` defaulting to 3600, the refresh token falls back to the
previously stored one when the response has none, and the call reports
success. -/
def save_tokens (st : AuthState) (now : Int) (resp : TokenResponse) :
    AuthState × Bool :=
  let expires_at := now + resp.expires_in.getD 3600
  (⟨some resp.access_token,
    (match resp.refresh_token with
     | some r => some r
     | none => st.refresh_token),
    some expires_at⟩, true)

/-- Embeds `_refresh_access_token`: no refresh token means failure; a
failed exchange (exception or non-2xx, which `raise_for_status` turns
into an exception) means failure with the state unchanged; a successful
exchange is persisted via `_save_tokens`. -/
def refresh_access_token (st : AuthState) (env : AuthEnv) : AuthState × Bool :=
  if !strTruthy st.refresh_token then (st, false)
  else
    match env.refreshResponse with
    | none => (st, false)
    | some resp => save_tokens st env.now resp

/-- Embeds `_do_oauth_flow` together with `_exchange_code_for_tokens`: any
failure before a token response leaves the state unchanged and fails;
a token response is persisted via `_save_tokens`. -/
def do_oauth_flow (st : AuthState) (env : AuthEnv) : AuthState × Bool :=
  match env.oauthResponse with
  | none => (st, false)
  | some resp => save_tokens st env.now resp

/-- Embeds `AdobeLightroomAuth.authenticate`: use a loaded valid token,
else refresh once when a refresh token is present, else (and on refresh
failure) run the interactive flow.  The returned state holds the session
fields at return time. -/
def authenticate (env : AuthEnv) : AuthState × Bool :=
  match load_tokens env with
  | (st, true) =>
    if is_token_valid st env.now then (st, true)
    else if strTruthy st.refresh_token then
      match refresh_access_token st env with
      | (st2, true) => (st2, true)
      | (st2, false) => do_oauth_flow st2 env
    else do_oauth_flow st env
  | (st, false) => do_oauth_flow st env

/-- The session the claim calls valid: an expiry is set and
`now < expires_at - 300`. -/
def sessionWithinSkew (st : AuthState) (now : Int) : Prop :=
  ∃ e, st.token_expires = some e ∧ now < e - 300

/-- A stored-but-expired token whose refresh succeeds with
`expires_in = 60`: the saved session expires 60 seconds after `now`,
inside the five-minute skew. -/
def shortRefreshAuthEnv : AuthEnv :=
  ⟨0, some ⟨some "tok", some "ref", some 100⟩, some ⟨"newtok", none, some 60⟩, none⟩

/-- A stored token that is still valid at `now = 0` (expires at 10000). -/
def validStoredAuthEnv : AuthEnv :=
  ⟨0, some ⟨some "tok", some "ref", some 10000⟩, none, none⟩

/-! ## Authenticated request client (`make_authenticated_request`)

`make_authenticated_request` issues the request and immediately calls
`response.raise_for_status()`, which raises `requests.exceptions.HTTPError`
exactly when the status code is in 400..599; the exception is logged and
re-raised to the caller.  Otherwise the (possibly prefix-stripped)
response is returned.  The embedding keeps the status code: `Except.error`
is the raised `HTTPError`, `Except.ok` the returned response.  An access
token is assumed present (the pipeline runs only after `authenticate`).
-/

/-- Response handling of `make_authenticated_request` (see above). -/
def make_authenticated_request (status : Nat) : Except Nat Nat :=
  if 400 ≤ status ∧ status < 600 then Except.error status else Except.ok status

/-! ## Transfer pipeline (`src/sync/logic.py`) -/

/-- Embeds `SyncLogic._get_asset_subtype`: `image/...` maps to `image`,
`video/...` to `video`, anything else defaults to `image`.  The
`startswith` tests are written on character lists so they evaluate. -/
def get_asset_subtype (mimeType : String) : String :=
  if "image/".data.isPrefixOf mimeType.data then "image"
  else if "video/".data.isPrefixOf mimeType.data then "video"
  else "image"

/-- The three Lightroom requests `_upload_file_to_lightroom` can issue,
with the data each carries. -/
inductive LrCall
  | createAsset (catalogueId assetId subtype fileName : String)
  | uploadMaster (catalogueId assetId mimeType : String) (contentLength : Nat)
  | addToAlbum (catalogueId albumId assetId : String)
deriving Repr, DecidableEq

/-- Statuses the Lightroom backend answers with during one item upload,
plus the asset id `uuid.uuid4()` mints for the item. -/
structure UploadEnv where
  createStatus : Nat
  uploadStatus : Nat
  addToAlbumStatus : Nat
  assetId : String
deriving Repr, DecidableEq

/-- The return sites of `_upload_file_to_lightroom`, each matching a
distinct console message: missing content (early `return False`); create
or upload failed (the raised `HTTPError` or `ValueError` is caught and
the function returns `False`); the add-to-album call raised `HTTPError`
(status 400..599, also caught, returns `False`); add-to-album returned a
status outside `[201, 200]` without raising (the warning branch, returns
`True`); full success (returns `True`). -/
inductive UploadEnd
  | emptyContent
  | createRejected
  | uploadRejected
  | addHttpError
  | doneWithWarning
  | done
deriving Repr, DecidableEq

/-- Observable result of `_upload_file_to_lightroom`: the returned
boolean, the requests issued in order, the minted asset id if the
function reached the minting line, and the return site. -/
structure UploadResult where
  ok : Bool
  calls : List LrCall
  mintedAsset : Option String
  finish : UploadEnd
deriving Repr, DecidableEq

/-- Embeds `SyncLogic._upload_file_to_lightroom`.  Empty or missing
content returns `False` before minting an asset id or issuing any
request.  Then, per phase: a status in 400..599 raises `HTTPError`
inside `make_authenticated_request` and a status outside `[201, 200]`
raises `ValueError`; for create and upload both exceptions are caught by
the handlers at the end of the function and yield `return False`, while
for add-to-album only the `HTTPError` path fails the call and a
non-raising status outside `[201, 200]` takes the warning branch and
still returns `True`. -/
def upload_file_to_lightroom (env : UploadEnv) (catalogueId : String)
    (fileContent : Option (List Nat)) (fileName albumId mimeType : String) :
    UploadResult :=
  if !bytesTruthy fileContent then ⟨false, [], none, .emptyContent⟩
  else
    let content := fileContent.getD []
    let assetId := env.assetId
    let createCall :=
      LrCall.createAsset catalogueId assetId (get_asset_subtype mimeType) fileName
    match make_authenticated_request env.createStatus with
    | .error _ => ⟨false, [createCall], some assetId, .createRejected⟩
    | .ok s =>
      if s = 201 ∨ s = 200 then
        let uploadCall := LrCall.uploadMaster catalogueId assetId mimeType content.length
        match make_authenticated_request env.uploadStatus with
        | .error _ => ⟨false, [createCall, uploadCall], some assetId, .uploadRejected⟩
        | .ok s2 =>
          if s2 = 201 ∨ s2 = 200 then
            let addCall := LrCall.addToAlbum catalogueId albumId assetId
            match make_authenticated_request env.addToAlbumStatus with
            | .error _ =>
              ⟨false, [createCall, uploadCall, addCall], some assetId, .addHttpError⟩
            | .ok s3 =>
              if s3 = 201 ∨ s3 = 200 then
                ⟨true, [createCall, uploadCall, addCall], some assetId, .done⟩
              else
                ⟨true, [createCall, uploadCall, addCall], some assetId, .doneWithWarning⟩
          else ⟨false, [createCall, uploadCall], some assetId, .uploadRejected⟩
      else ⟨false, [createCall], some assetId, .createRejected⟩

/-- A Drive file entry as `sync_folder_to_album` reads it
(`file.get("name")`, `file.get("id")`, `file.get("mimeType")`). -/
structure DriveFile where
  name : Option String
  id : Option String
  mimeType : Option String
deriving Repr, DecidableEq

/-- Environment of one sync run: the Drive download result per file id
(`none` when the download raises) and the Lightroom statuses and minted
asset id per file id. -/
structure SyncEnv where
  download : String → Option (List Nat)
  lrEnv : String → UploadEnv

/-- Terminal branch of one inner-loop iteration of
`sync_folder_to_album`, each matching a distinct console message:
skipped for a missing id (`continue` before any network call), download
produced no usable content (exception or empty bytes, upload skipped),
or the upload routine ran and finished with the recorded result. -/
inductive ItemEnd
  | skippedNoId
  | noContent
  | uploaded (result : UploadResult)
deriving Repr, DecidableEq

/-- The per-item record one iteration of the sync loop leaves behind:
the display name, the file id a Drive download was attempted for (if
any), and the terminal branch. -/
structure ItemRecord where
  fileName : String
  downloadedId : Option String
  finish : ItemEnd
deriving Repr, DecidableEq

/-- The body of the inner loop of `sync_folder_to_album` for one entry:
read name, id and MIME type with their defaults; skip entries whose id
is missing or empty before any network call; otherwise download, and
upload only when the content is truthy. -/
def sync_item (env : SyncEnv) (albumId catalogueId : String)
    (file : DriveFile) : ItemRecord :=
  let fileName := file.name.getD "Unknown File"
  let fileMime := file.mimeType.getD "application/octet-stream"
  if !strTruthy file.id then ⟨fileName, none, .skippedNoId⟩
  else
    let fid := file.id.getD ""
    let content := env.download fid
    if bytesTruthy content then
      ⟨fileName, some fid,
        .uploaded (upload_file_to_lightroom (env.lrEnv fid) catalogueId content
          fileName albumId fileMime)⟩
    else ⟨fileName, some fid, .noContent⟩

/-- The batch slicing `for i in range(0, len(files), 5)` performs:
consecutive slices `files[i:i+5]`, written as a structural recursion
that peels the next slice of five (a final slice of fewer than five
elements is the remainder slice Python produces). -/
def sliceBatches {α : Type} : List α → List (List α)
  | [] => []
  | [a] => [[a]]
  | [a, b] => [[a, b]]
  | [a, b, c] => [[a, b, c]]
  | [a, b, c, d] => [[a, b, c, d]]
  | a :: b :: c :: d :: e :: rest => [a, b, c, d, e] :: sliceBatches rest

/-- The batch sizes the slicing produces for a given input length. -/
def chunkSizes : Nat → List Nat
  | 0 => []
  | 1 => [1]
  | 2 => [2]
  | 3 => [3]
  | 4 => [4]
  | n + 5 => 5 :: chunkSizes n

/-- Embeds `SyncLogic.sync_folder_to_album`: an empty listing returns at
once; otherwise the entries are processed batch by batch (slices of 5)
and item by item within each batch.  The Python function returns `None`;
its observable output is the ordered sequence of per-item records the
loop produces (one console block and one terminal branch per entry),
which the embedding returns explicitly. -/
def sync_folder_to_album (env : SyncEnv) (driveFiles : List DriveFile)
    (albumId albumName catalogueId : String) : List ItemRecord :=
  if driveFiles.isEmpty then []
  else
    ((sliceBatches driveFiles).map
      (fun batch => batch.map (sync_item env albumId catalogueId))).flatten

/-! ## Spec-side outcome vocabulary

The code constructs no `TransferOutcome` values; the specification
(sections 3 and 4.4) assigns a status and detail to each terminal
per-item code path.  The two maps below are modelled from the spec for
comparison with the code-level branches. -/

/-- The spec statuses for a `TransferOutcome`. -/
inductive TransferStatus
  | succeeded
  | downloadFailed
  | createFailed
  | uploadFailed
  | associateFailed
deriving Repr, DecidableEq

/-- Modelled from the spec: the status and detail section 4.4 assigns to
each return site of the upload routine.  In particular any add-to-album
failure after a successful upload is a degraded success: status
`succeeded` with a non-empty association warning detail. -/
def specUploadOutcome : UploadEnd → TransferStatus × String
  | .emptyContent => (.downloadFailed, "missing content")
  | .createRejected => (.createFailed, "create returned non-2xx")
  | .uploadRejected => (.uploadFailed, "upload returned non-2xx")
  | .addHttpError => (.succeeded, "association failed")
  | .doneWithWarning => (.succeeded, "association failed")
  | .done => (.succeeded, "")

/-- Modelled from the spec: the status and detail sections 3 and 4.4
assign to each terminal branch of one pipeline item; an entry without an
id is recorded as `DownloadFailed` with detail `missing id`. -/
def specItemOutcome : ItemEnd → TransferStatus × String
  | .skippedNoId => (.downloadFailed, "missing id")
  | .noContent => (.downloadFailed, "download failed")
  | .uploaded u => specUploadOutcome u.finish

/-- Backend answers for the degraded-success scenario: create and upload
succeed, add-to-album answers 500. -/
def assocFailEnv : UploadEnv := ⟨201, 200, 500, "asset1"⟩

/-- A sync environment where every download raises and the backend
answers 200 everywhere, used for concrete batch runs. -/
def failingDownloadSyncEnv : SyncEnv :=
  ⟨fun _ => none, fun fid => ⟨200, 200, 200, fid⟩⟩

/-- Twelve id-less Drive entries (the 12-entry batching scenario). -/
def twelveFiles : List DriveFile := List.replicate 12 ⟨none, none, none⟩

/-- The Lightroom requests a per-item record contains (empty unless the
upload routine ran). -/
def itemLrCalls : ItemRecord → List LrCall
  | ⟨_, _, .uploaded u⟩ => u.calls
  | _ => []

/-- Five Drive entries with ids `f1` .. `f5`. -/
def fiveFiles : List DriveFile :=
  [⟨some "n1", some "f1", some "image/jpeg"⟩,
   ⟨some "n2", some "f2", some "image/jpeg"⟩,
   ⟨some "n3", some "f3", some "image/jpeg"⟩,
   ⟨some "n4", some "f4", some "image/jpeg"⟩,
   ⟨some "n5", some "f5", some "image/jpeg"⟩]

/-- A sync environment where only the download of `f3` raises and every
Lightroom call answers 200 (the batch-independence scenario). -/
def thirdFailsSyncEnv : SyncEnv :=
  ⟨fun fid => if fid = "f3" then none else some [1], fun fid => ⟨200, 200, 200, fid⟩⟩

/-! ## Console channel -/

/-- A reified console line: error lines are the messages printed with an
error marker in the code, info lines the rest. -/
inductive ConsoleLine
  | errorLine (msg : String)
  | infoLine (msg : String)
deriving Repr, DecidableEq

/-! ## Drive file listing (`src/sync/logic.py`, `list_drive_files`) -/

/-- Environment for `list_drive_files`: the result of
`files().list(...).execute().get("files", [])` per folder id, `none`
when the API call raises. -/
structure DriveListEnv where
  listing : String → Option (List DriveFile)

/-- Embeds `SyncLogic.list_drive_files`: any exception (including a
non-2xx provider response, which the Drive client raises as an
exception) is caught, an error line is printed, and the empty list is
returned; otherwise the files are returned with an info line. -/
def list_drive_files (env : DriveListEnv) (folderId : String) :
    List DriveFile × List ConsoleLine :=
  match env.listing folderId with
  | none => ([], [.errorLine "Error listing Google Drive files"])
  | some files =>
    if files.isEmpty then (files, [.infoLine "No files found in this Google Drive folder."])
    else (files, [.infoLine "Found files"])

/-! ## Album listing (`src/ui/menus.py`, `LightroomAlbumSelector.list_albums`) -/

/-- The destination API base `https://lr.adobe.io`. -/
def lrApiBase : String := "https://lr.adobe.io"

/-- One raw album resource as `_extract_album_info` reads it; the
`payload.name` and `payload.subtype` fields are inlined. -/
structure AlbumRaw where
  id : Option String
  name : Option String
  subtype : Option String
  created : Option String
  updated : Option String
deriving Repr, DecidableEq

/-- The album dictionary `_extract_album_info` builds. -/
structure AlbumInfo where
  id : Option String
  name : String
  created : Option String
  updated : Option String
  subtype : Option String
deriving Repr, DecidableEq

/-- Embeds `_extract_album_info` (defaults: name `Unnamed Album`, all
other fields `None` when absent). -/
def extract_album_info (a : AlbumRaw) : AlbumInfo :=
  ⟨a.id, a.name.getD "Unnamed Album", a.created, a.updated, a.subtype⟩

/-- The parts of a parsed 200-response body `list_albums` reads:
`links.next.href` when present, and the `resources` list when present. -/
structure AlbumsDoc where
  nextHref : Option String
  resources : Option (List AlbumRaw)
deriving Repr, DecidableEq

/-- Outcome of the `requests.get` in `list_albums`: the call raised, or
it returned a status code with a body (`doc = none` models a body the
JSON parse raises on). -/
inductive FetchOutcome
  | raised
  | response (status : Nat) (doc : Option AlbumsDoc)
deriving Repr, DecidableEq

/-- Environment for `list_albums`: the stored `self.catalog_id` and the
backend answer per issued request (url and query parameters). -/
structure AlbumsEnv where
  catalogId : Option String
  fetch : String → List (String × Nat) → FetchOutcome

/-- The request `list_albums` issues: when a truthy `next_link` is given
the url is the link itself and no query parameters are sent; otherwise
the url is the albums endpoint and `limit` (when not `None`) and
`offset` (when positive) are sent as query parameters. -/
def list_albums_request (catalogId : String) (limit : Option Nat)
    (offset : Nat) (nextLink : Option String) : String × List (String × Nat) :=
  let url :=
    if strTruthy nextLink then nextLink.getD ""
    else lrApiBase ++ "/v2/catalogs/" ++ catalogId ++ "/albums"
  let params :=
    if strTruthy nextLink then []
    else
      (match limit with
       | some l => [("limit", l)]
       | none => []) ++
      (if 0 < offset then [("offset", offset)] else [])
  (url, params)

/-- Embeds `LightroomAlbumSelector.list_albums`: without a catalog id
the call returns empty at once with an error line; a raised request or
an unparseable 200 body is caught and returns empty with an error line;
a non-200 status returns empty with the matching error line; a 200
response yields the extracted albums whose id is truthy, in order, and
the absolute next-page link when `links.next.href` is present and
truthy. -/
def list_albums (env : AlbumsEnv) (limit : Option Nat) (offset : Nat)
    (nextLink : Option String) :
    (List AlbumInfo × Option String) × List ConsoleLine :=
  if !strTruthy env.catalogId then
    (([], none), [.errorLine "No catalog ID - call get_catalog_id() first"])
  else
    let cid := env.catalogId.getD ""
    let req := list_albums_request cid limit offset nextLink
    match env.fetch req.1 req.2 with
    | .raised => (([], none), [.errorLine "Exception"])
    | .response status doc =>
      if status = 200 then
        match doc with
        | none => (([], none), [.errorLine "Exception"])
        | some d =>
          let nextPageLink :=
            match d.nextHref with
            | some href =>
              if href != "" then
                some (lrApiBase ++ "/v2/catalogs/" ++ cid ++ "/" ++ href)
              else none
            | none => none
          let albums :=
            match d.resources with
            | some rs => (rs.map extract_album_info).filter (fun a => strTruthy a.id)
            | none => []
          ((albums, nextPageLink), [.infoLine "fetched"])
      else if status = 404 then
        (([], none), [.errorLine "Catalog not found - catalog_id might be invalid"])
      else if status = 401 then
        (([], none), [.errorLine "Authentication failed"])
      else if status = 403 then
        (([], none), [.errorLine "Access denied"])
      else (([], none), [.errorLine ("Error " ++ toString status)])

/-- A Drive listing environment where every listing call raises. -/
def raisingDriveListEnv : DriveListEnv := ⟨fun _ => none⟩

/-- An albums environment with a catalog id where every fetch raises. -/
def raisingAlbumsEnv : AlbumsEnv := ⟨some "cat1", fun _ _ => FetchOutcome.raised⟩

/-- An albums environment with a catalog id where every fetch answers a
500 with no parseable body. -/
def failingAlbumsEnv : AlbumsEnv :=
  ⟨some "cat1", fun _ _ => FetchOutcome.response 500 none⟩

/-- An albums environment with a catalog id answering 404 everywhere,
used to exercise cursor addressing with a concrete call. -/
def notFoundAlbumsEnv : AlbumsEnv :=
  ⟨some "cat1", fun _ _ => FetchOutcome.response 404 none⟩

/-! ## Theorems -/

set_option maxRecDepth 8192 in
/-- C6: the claim as stated is false at a concrete body.  On a body
consisting of the guard written twice, one strip leaves a body that
still starts with the guard, so a second strip removes twelve more
characters: applying the strip twice does not equal applying it once. -/
theorem C6_counterexample :
    strip_adobe_prefix ( strip_adobe_prefix (adobeGuard ++ adobeGuard)) ≠
      strip_adobe_prefix (adobeGuard ++ adobeGuard) := by
  decide

/-- C6 (amended): `_strip_adobe_prefix` returns every body that does not
start with the literal guard `while (1) \x7b\x7d` unchanged, and on such
bodies stripping twice equals stripping once; the idempotence law does
not extend to bodies whose payload itself starts with the guard. -/
theorem C6_unprefixed_strip_is_identity :
    ∀ s : String, adobeGuard.data.isPrefixOf s.data = false →
      strip_adobe_prefix s = s ∧
        strip_adobe_prefix ( strip_adobe_prefix s) = strip_adobe_prefix s := by
  intro s h
  constructor <;> simp [ strip_adobe_prefix, h]

/-- C6 witness: the amended theorem at the concrete body `abc`. -/
theorem C6_witness :
    adobeGuard.data.isPrefixOf "abc".data = false ∧
      ( strip_adobe_prefix "abc" = "abc" ∧
        strip_adobe_prefix ( strip_adobe_prefix "abc") = strip_adobe_prefix "abc") :=
  ⟨by decide, C6_unprefixed_strip_is_identity "abc" (by decide)⟩

/-- C7: the claim as stated is false on a cyclic parent reference.  On
the one-folder cycle the result with recursion budget 3 is not the
unknown-path fallback, and the result still changes when the budget
grows to 4: the recursion is bounded by no program-level constant and
the fallback is not what the call returns. -/
theorem C7_counterexample :
    get_folder_path cycDriveEnv 3 "a" ≠ unknownPathFor "a" ∧
      get_folder_path cycDriveEnv 4 "a" ≠ get_folder_path cycDriveEnv 3 "a" := by
  decide

/-- C7 (amended): a malformed parent reference (the metadata lookup
raises) returns exactly the unknown-path fallback at any recursion
budget; on the cyclic reference the walk consumes the entire budget,
the exhausted innermost frame yields the unknown-path fallback, and
each additional unit of budget appends one more folder name to the
result. -/
theorem C7_bounded_fallback :
    (∀ (env : DriveEnv) (fuel : Nat) (fid : String), fid ≠ "root" →
        env.lookup fid = none →
        get_folder_path env fuel fid = unknownPathFor fid) ∧
      get_folder_path cycDriveEnv 0 "a" = unknownPathFor "a" ∧
      ∀ n : Nat, get_folder_path cycDriveEnv (n + 1) "a" =
        get_folder_path cycDriveEnv n "a" ++ " / " ++ "x" := by
  refine ⟨?_, by decide, ?_⟩
  · intro env fuel fid h1 h2
    rw [get_folder_path]
    simp [h1, h2]
  · intro n
    conv_lhs => rw [get_folder_path]
    simp [cycDriveEnv]

/-- C7 witness: the amended theorem at the malformed reference `b`
(whose lookup raises in `cycDriveEnv`) and at the cycle with budget 1. -/
theorem C7_witness :
    cycDriveEnv.lookup "b" = none ∧
      get_folder_path cycDriveEnv 7 "b" = unknownPathFor "b" ∧
      get_folder_path cycDriveEnv 1 "a" =
        get_folder_path cycDriveEnv 0 "a" ++ " / " ++ "x" :=
  ⟨by decide, C7_bounded_fallback.1 cycDriveEnv 7 "b" (by decide) (by decide),
    C7_bounded_fallback.2.2 0⟩

/-- C10: with `None` or empty file content, `_upload_file_to_lightroom`
returns `False` at once: no asset id is minted and no create, upload or
add-to-album request is issued. -/
theorem C10_empty_content_short_circuit :
    ∀ (env : UploadEnv) (catalogueId : String) (content : Option (List Nat))
      (fileName albumId mimeType : String), bytesTruthy content = false →
      upload_file_to_lightroom env catalogueId content fileName albumId mimeType =
        ⟨false, [], none, UploadEnd.emptyContent⟩ := by
  intro env cat content fn al mt h
  simp [upload_file_to_lightroom, h]

/-- C10 witness: the theorem at `None` content. -/
theorem C10_witness :
    bytesTruthy none = false ∧
      upload_file_to_lightroom ⟨200, 200, 200, "a0"⟩ "cat" none "f" "alb" "image/jpeg" =
        ⟨false, [], none, UploadEnd.emptyContent⟩ :=
  ⟨by decide,
    C10_empty_content_short_circuit ⟨200, 200, 200, "a0"⟩ "cat" none "f" "alb"
      "image/jpeg" (by decide)⟩

/-- C2: evaluation of the code at the failing input.  With create and
upload succeeding and the add-to-album call answering 500, the 500 makes
`raise_for_status` inside `make_authenticated_request` raise `HTTPError`;
the handler in `_upload_file_to_lightroom` catches it and the function
returns `False`, reporting the item as failed, although all three
requests were issued and the spec assigns this path the degraded-success
status `Succeeded`.  The warning branch of the code is unreachable for
statuses in 400..599. -/
theorem C2_code_divergence :
    (upload_file_to_lightroom assocFailEnv "cat" (some [7]) "f.jpg" "alb"
        "image/jpeg").ok = false ∧
      (upload_file_to_lightroom assocFailEnv "cat" (some [7]) "f.jpg" "alb"
        "image/jpeg").finish = UploadEnd.addHttpError ∧
      (upload_file_to_lightroom assocFailEnv "cat" (some [7]) "f.jpg" "alb"
        "image/jpeg").calls =
        [LrCall.createAsset "cat" "asset1" "image" "f.jpg",
         LrCall.uploadMaster "cat" "asset1" "image/jpeg" 1,
         LrCall.addToAlbum "cat" "alb" "asset1"] ∧
      (specUploadOutcome UploadEnd.addHttpError).1 = TransferStatus.succeeded := by
  decide

/-- C3: with truthy content and a non-2xx create status, the item stops
at the create phase: the routine returns `False`, only the create
request was issued (no upload, no add-to-album), and the spec assigns
the path status `CreateFailed`.  A 400..599 status raises `HTTPError`
inside `make_authenticated_request`, any other non-2xx status raises
`ValueError`; both exceptions are caught and yield `return False`. -/
theorem C3_create_nonsuccess_stops_item :
    ∀ (env : UploadEnv) (catalogueId : String) (content : Option (List Nat))
      (fileName albumId mimeType : String),
      bytesTruthy content = true →
      env.createStatus < 200 ∨ 300 ≤ env.createStatus →
      upload_file_to_lightroom env catalogueId content fileName albumId mimeType =
        ⟨false,
          [LrCall.createAsset catalogueId env.assetId (get_asset_subtype mimeType)
            fileName],
          some env.assetId, UploadEnd.createRejected⟩ ∧
        (specUploadOutcome UploadEnd.createRejected).1 = TransferStatus.createFailed := by
  intro env cat content fn al mt hc hs
  refine ⟨?_, rfl⟩
  by_cases h4 : 400 ≤ env.createStatus ∧ env.createStatus < 600
  · simp [upload_file_to_lightroom, hc, make_authenticated_request, h4]
  · have h20 : ¬(env.createStatus = 201 ∨ env.createStatus = 200) := by omega
    simp [upload_file_to_lightroom, hc, make_authenticated_request, h4, h20]

/-- C3 witness: the theorem at a create status of 412 (precondition
failed). -/
theorem C3_witness :
    bytesTruthy (some [7]) = true ∧ ((412 : Nat) < 200 ∨ 300 ≤ (412 : Nat)) ∧
      upload_file_to_lightroom ⟨412, 200, 200, "a9"⟩ "cat" (some [7]) "f" "alb"
          "image/jpeg" =
        ⟨false, [LrCall.createAsset "cat" "a9" "image" "f"], some "a9",
          UploadEnd.createRejected⟩ ∧
      (specUploadOutcome UploadEnd.createRejected).1 = TransferStatus.createFailed := by
  have h := C3_create_nonsuccess_stops_item ⟨412, 200, 200, "a9"⟩ "cat" (some [7])
    "f" "alb" "image/jpeg" (by decide) (by decide)
  exact ⟨by decide, by decide, h.1, h.2⟩

/-- C8: an entry whose id is missing (or empty, which Python treats
alike) is skipped before any network call: no Drive download is
attempted and no Lightroom request is issued, the loop records the
skip branch for the entry, and the spec assigns that branch status
`DownloadFailed` with detail `missing id`. -/
theorem C8_missing_id_skipped :
    ∀ (env : SyncEnv) (albumId catalogueId : String) (file : DriveFile),
      strTruthy file.id = false →
      sync_item env albumId catalogueId file =
        ⟨file.name.getD "Unknown File", none, ItemEnd.skippedNoId⟩ ∧
      itemLrCalls (sync_item env albumId catalogueId file) = [] ∧
      specItemOutcome ItemEnd.skippedNoId =
        (TransferStatus.downloadFailed, "missing id") := by
  intro env al cat file h
  have h1 : sync_item env al cat file =
      ⟨file.name.getD "Unknown File", none, ItemEnd.skippedNoId⟩ := by
    simp [sync_item, h]
  exact ⟨h1, by rw [h1]; rfl, rfl⟩

/-- C8 witness: the theorem at an entry with no id field. -/
theorem C8_witness :
    strTruthy (⟨some "n", none, none⟩ : DriveFile).id = false ∧
      sync_item thirdFailsSyncEnv "alb" "cat" ⟨some "n", none, none⟩ =
        ⟨"n", none, ItemEnd.skippedNoId⟩ ∧
      itemLrCalls (sync_item thirdFailsSyncEnv "alb" "cat" ⟨some "n", none, none⟩) = [] ∧
      specItemOutcome ItemEnd.skippedNoId =
        (TransferStatus.downloadFailed, "missing id") := by
  have h := C8_missing_id_skipped thirdFailsSyncEnv "alb" "cat" ⟨some "n", none, none⟩
    (by decide)
  exact ⟨by decide, h.1, h.2.1, h.2.2⟩

/-- The slices cover the input in order: flattening the batches gives
back the input list. -/
theorem sliceBatches_flatten {α : Type} : ∀ (l : List α), (sliceBatches l).flatten = l
  | [] => rfl
  | [a] => rfl
  | [a, b] => rfl
  | [a, b, c] => rfl
  | [a, b, c, d] => rfl
  | a :: b :: c :: d :: e :: rest => by
    simp [sliceBatches, sliceBatches_flatten rest]

/-- The batch sizes are determined by the input length alone. -/
theorem sliceBatches_sizes {α : Type} :
    ∀ (l : List α), (sliceBatches l).map List.length = chunkSizes l.length
  | [] => rfl
  | [a] => rfl
  | [a, b] => rfl
  | [a, b, c] => rfl
  | [a, b, c, d] => rfl
  | a :: b :: c :: d :: e :: rest => by
    have h : (a :: b :: c :: d :: e :: rest).length = rest.length + 5 := by
      simp [List.length_cons]
    rw [h]
    simp [sliceBatches, chunkSizes, sliceBatches_sizes rest]

/-- Batch-by-batch processing equals processing the input entries one by
one in input order. -/
theorem sync_eq_map (env : SyncEnv) (files : List DriveFile)
    (albumId albumName catalogueId : String) :
    sync_folder_to_album env files albumId albumName catalogueId =
      files.map (sync_item env albumId catalogueId) := by
  unfold sync_folder_to_album
  by_cases h : files.isEmpty
  · simp [h, List.isEmpty_iff.mp h]
  · simp only [h, if_false, Bool.false_eq_true]
    rw [← List.map_flatten, sliceBatches_flatten]

/-- C1: the pipeline processes the listing in consecutive slices of 5
covering the input in order; the batch result is one per-item record per
input entry in input order, whatever the per-item failures (it is the
map of the per-item step over the input); a 12-entry listing yields
batches of sizes 5, 5 and 2; and in the concrete scenario where the
third of five downloads fails, all five entries still produce records,
with statuses `Succeeded, Succeeded, DownloadFailed, Succeeded,
Succeeded` in input order. -/
theorem C1_batched_ordered_outcomes :
    (∀ (env : SyncEnv) (files : List DriveFile)
        (albumId albumName catalogueId : String),
        sync_folder_to_album env files albumId albumName catalogueId =
          files.map (sync_item env albumId catalogueId)) ∧
      (∀ (files : List DriveFile), (sliceBatches files).flatten = files) ∧
      (∀ (files : List DriveFile),
        (sliceBatches files).map List.length = chunkSizes files.length) ∧
      chunkSizes 12 = [5, 5, 2] ∧
      (sliceBatches twelveFiles).map List.length = [5, 5, 2] ∧
      (sync_folder_to_album thirdFailsSyncEnv fiveFiles "alb" "an" "cat").map
          (fun r => (specItemOutcome r.finish).1) =
        [TransferStatus.succeeded, TransferStatus.succeeded,
          TransferStatus.downloadFailed, TransferStatus.succeeded,
          TransferStatus.succeeded] := by
  exact ⟨sync_eq_map, sliceBatches_flatten, sliceBatches_sizes, by decide, by decide,
    by decide⟩

/-- A session that passes `_is_token_valid` is within the skew. -/
theorem is_token_valid_withinSkew (st : AuthState) (now : Int)
    (h : is_token_valid st now = true) : sessionWithinSkew st now := by
  obtain ⟨a, r, e⟩ := st
  cases a <;> cases e <;> simp [is_token_valid] at h
  exact ⟨_, rfl, h.2⟩

/-- A saved token response whose `expires_in` (default 3600) exceeds the
skew yields a session within the skew. -/
theorem save_tokens_withinSkew (st : AuthState) (now : Int) (resp : TokenResponse)
    (h : 300 < resp.expires_in.getD 3600) :
    sessionWithinSkew (save_tokens st now resp).1 now :=
  ⟨now + resp.expires_in.getD 3600, rfl, by omega⟩

/-- A successful interactive flow saved a token response; under the
`expires_in` proviso the resulting session is within the skew. -/
theorem do_oauth_withinSkew (st : AuthState) (env : AuthEnv)
    (ho : ∀ r, env.oauthResponse = some r → 300 < r.expires_in.getD 3600)
    (hs : (do_oauth_flow st env).2 = true) :
    sessionWithinSkew (do_oauth_flow st env).1 env.now := by
  cases hor : env.oauthResponse with
  | none => rw [do_oauth_flow, hor] at hs; simp at hs
  | some r =>
    rw [do_oauth_flow, hor]
    exact save_tokens_withinSkew st env.now r (ho r hor)

/-- A successful refresh saved a token response; under the `expires_in`
proviso the resulting session is within the skew. -/
theorem refresh_withinSkew (st : AuthState) (env : AuthEnv)
    (hr : ∀ r, env.refreshResponse = some r → 300 < r.expires_in.getD 3600)
    (hs : (refresh_access_token st env).2 = true) :
    sessionWithinSkew (refresh_access_token st env).1 env.now := by
  unfold refresh_access_token at hs ⊢
  by_cases ht : (!strTruthy st.refresh_token) = true
  · rw [if_pos ht] at hs
    simp at hs
  · rw [if_neg ht] at hs ⊢
    cases hrr : env.refreshResponse with
    | none => rw [hrr] at hs; simp at hs
    | some r =>
      exact save_tokens_withinSkew st env.now r (hr r hrr)

/-- C4: the claim as stated is false.  With a stored expired token and a
refresh exchange answering `expires_in = 60`, `authenticate` succeeds via
the refresh path but the saved session expires 60 seconds after `now`,
inside the five-minute skew: `_save_tokens` persists `now + expires_in`
without re-checking validity before `authenticate` returns true. -/
theorem C4_counterexample :
    (authenticate shortRefreshAuthEnv).2 = true ∧
      ¬ sessionWithinSkew (authenticate shortRefreshAuthEnv).1
        shortRefreshAuthEnv.now := by
  constructor
  · decide
  · rintro ⟨e, he, hlt⟩
    have h60 : (authenticate shortRefreshAuthEnv).1.token_expires = some 60 := by
      decide
    rw [h60] at he
    injection he with he'
    subst he'
    have hn : shortRefreshAuthEnv.now = 0 := rfl
    rw [hn] at hlt
    omega

/-- C4 (amended): when `authenticate` succeeds through the existing-token
path the session satisfies `now < expires_at - 300` by the validity
check; through the refresh and interactive paths the saved session has
`expires_at = now + expires_in` (default 3600), so the bound holds
provided every token response saved during the call reports
`expires_in > 300` (the default 3600 qualifies) — not unconditionally. -/
theorem C4_success_within_skew :
    ∀ (env : AuthEnv),
      (∀ r, env.refreshResponse = some r → 300 < r.expires_in.getD 3600) →
      (∀ r, env.oauthResponse = some r → 300 < r.expires_in.getD 3600) →
      (authenticate env).2 = true →
      sessionWithinSkew (authenticate env).1 env.now := by
  intro env hr ho hs
  unfold authenticate at hs ⊢
  rcases hload : load_tokens env with ⟨st, loaded⟩
  rw [hload] at hs
  cases loaded with
  | false =>
    dsimp only at hs ⊢
    exact do_oauth_withinSkew st env ho hs
  | true =>
    dsimp only at hs ⊢
    by_cases hv : is_token_valid st env.now = true
    · rw [if_pos hv] at hs ⊢
      exact is_token_valid_withinSkew st env.now hv
    · rw [if_neg hv] at hs ⊢
      by_cases hrt : strTruthy st.refresh_token = true
      · rw [if_pos hrt] at hs ⊢
        rcases href : refresh_access_token st env with ⟨st2, ok⟩
        rw [href] at hs
        cases ok with
        | false =>
          dsimp only at hs ⊢
          exact do_oauth_withinSkew st2 env ho hs
        | true =>
          have h2 : (refresh_access_token st env).2 = true := by rw [href]
          have h1 := refresh_withinSkew st env hr h2
          rw [href] at h1
          dsimp only at hs ⊢
          exact h1
      · rw [if_neg hrt] at hs ⊢
        exact do_oauth_withinSkew st env ho hs

/-- C4 witness: the amended theorem at the environment with a stored
token still valid at `now = 0` (no refresh or interactive response
exists, so the provisos hold vacuously). -/
theorem C4_witness :
    (authenticate validStoredAuthEnv).2 = true ∧
      sessionWithinSkew (authenticate validStoredAuthEnv).1
        validStoredAuthEnv.now :=
  ⟨by decide,
    C4_success_within_skew validStoredAuthEnv
      (fun r h => by simp [validStoredAuthEnv] at h)
      (fun r h => by simp [validStoredAuthEnv] at h) (by decide)⟩

/-- C5: when a truthy `next_link` cursor is supplied, `list_albums`
issues the request to the cursor url with no query parameters — the
supplied `limit` and `offset` are ignored, so the result of the call
does not depend on them at all. -/
theorem C5_cursor_excludes_offset :
    ∀ (catalogId : String) (limit : Option Nat) (offset : Nat) (s : String),
      s ≠ "" →
      list_albums_request catalogId limit offset (some s) = (s, []) ∧
      ∀ (env : AlbumsEnv) (limit2 : Option Nat) (offset2 : Nat),
        list_albums env limit offset (some s) =
          list_albums env limit2 offset2 (some s) := by
  intro cid limit offset s hs
  have hreq : ∀ (l : Option Nat) (o : Nat) (c : String),
      list_albums_request c l o (some s) = (s, []) := by
    intro l o c
    simp [list_albums_request, strTruthy, hs]
  refine ⟨hreq limit offset cid, ?_⟩
  intro env l2 o2
  simp only [list_albums, hreq]

/-- C5 witness: the theorem at a concrete cursor, limit 25 and offset 7,
against the concrete 404-answering backend. -/
theorem C5_witness :
    ("next1" : String) ≠ "" ∧
      list_albums_request "cat1" (some 25) 7 (some "next1") = ("next1", []) ∧
      list_albums notFoundAlbumsEnv (some 25) 7 (some "next1") =
        list_albums notFoundAlbumsEnv none 0 (some "next1") := by
  have h := C5_cursor_excludes_offset "cat1" (some 25) 7 "next1" (by decide)
  exact ⟨by decide, h.1, h.2 notFoundAlbumsEnv none 0⟩

/-- C9: a failed listing aborts only the listing operation and signals
the failure on the console channel, separate from the returned value.
A raising Drive listing returns the empty file list with an error line;
a raising albums fetch (or an unparseable 200 body would likewise) and
any non-200 albums status return the empty album page with no next
cursor and an error line.  The functions return normally (total
functions here), so the failure aborts no caller. -/
theorem C9_listing_failures_return_empty :
    (∀ (env : DriveListEnv) (folderId : String), env.listing folderId = none →
        list_drive_files env folderId =
          ([], [ConsoleLine.errorLine "Error listing Google Drive files"])) ∧
      (∀ (env : AlbumsEnv) (limit : Option Nat) (offset : Nat)
          (nextLink : Option String),
          strTruthy env.catalogId = true →
          env.fetch
              (list_albums_request (env.catalogId.getD "") limit offset nextLink).1
              (list_albums_request (env.catalogId.getD "") limit offset nextLink).2 =
            FetchOutcome.raised →
          list_albums env limit offset nextLink =
            (([], none), [ConsoleLine.errorLine "Exception"])) ∧
      (∀ (env : AlbumsEnv) (limit : Option Nat) (offset : Nat)
          (nextLink : Option String) (status : Nat) (doc : Option AlbumsDoc),
          strTruthy env.catalogId = true →
          env.fetch
              (list_albums_request (env.catalogId.getD "") limit offset nextLink).1
              (list_albums_request (env.catalogId.getD "") limit offset nextLink).2 =
            FetchOutcome.response status doc →
          status ≠ 200 →
          (list_albums env limit offset nextLink).1 = ([], none) ∧
          ∃ msg, (list_albums env limit offset nextLink).2 =
            [ConsoleLine.errorLine msg]) := by
  refine ⟨?_, ?_, ?_⟩
  · intro env fid h
    simp [list_drive_files, h]
  · intro env l o nl hc hf
    simp [list_albums, hc, hf]
  · intro env l o nl status doc hc hf hne
    have hform : list_albums env l o nl =
        (if status = 404 then
          (([], none),
            [ConsoleLine.errorLine "Catalog not found - catalog_id might be invalid"])
        else if status = 401 then
          (([], none), [ConsoleLine.errorLine "Authentication failed"])
        else if status = 403 then
          (([], none), [ConsoleLine.errorLine "Access denied"])
        else (([], none), [ConsoleLine.errorLine ("Error " ++ toString status)])) := by
      simp [list_albums, hc, hf, hne]
    rw [hform]
    split_ifs <;> exact ⟨rfl, ⟨_, rfl⟩⟩

/-- C9 witness: the theorem at the raising Drive listing, the raising
albums fetch, and the 500-answering albums backend. -/
theorem C9_witness :
    raisingDriveListEnv.listing "folder1" = none ∧
      list_drive_files raisingDriveListEnv "folder1" =
        ([], [ConsoleLine.errorLine "Error listing Google Drive files"]) ∧
      list_albums raisingAlbumsEnv none 0 none =
        (([], none), [ConsoleLine.errorLine "Exception"]) ∧
      (list_albums failingAlbumsEnv none 0 none).1 = ([], none) ∧
      ∃ msg, (list_albums failingAlbumsEnv none 0 none).2 =
        [ConsoleLine.errorLine msg] := by
  refine ⟨rfl, C9_listing_failures_return_empty.1 raisingDriveListEnv "folder1" rfl,
    C9_listing_failures_return_empty.2.1 raisingAlbumsEnv none 0 none (by decide) rfl,
    ?_, ?_⟩
  · exact (C9_listing_failures_return_empty.2.2 failingAlbumsEnv none 0 none 500 none
      (by decide) rfl (by decide)).1
  · exact (C9_listing_failures_return_empty.2.2 failingAlbumsEnv none 0 none 500 none
      (by decide) rfl (by decide)).2

end DriveToLightroom
